import Mathlib

/-!
Verification of the auth workflow in src/server/src/resolvers/user.ts.

The resolver methods (register, login, logout, forgotPassword, changePassword)
are embedded as pure Lean functions over an explicit state:
a user table (Credential Store), a key-value cache with per-key expiry
(Token Cache), the current session userId, and a log of dispatched emails.
Time is an explicit natural-number parameter measured in the same unit the
cache expiry uses (seconds, matching the EX mode of the cache set command).
The password hasher (argon2) is an external library and is passed in as an
abstract pair of hash/verify functions.
-/

/-- A row of the user table: integer id, unique username and email, and the
stored password digest. Embeds the User entity used by the resolver. -/
structure User where
  id : Nat
  username : String
  email : String
  password : String
  deriving Repr, DecidableEq

/-- A field-level error as returned inside UserMutationResponse. -/
structure FieldError where
  field : String
  message : String
  deriving Repr, DecidableEq

/-- The uniform mutation result shape of src/server/src/types/UserMutationResponse. -/
structure UserMutationResponse where
  code : Nat
  success : Bool
  message : String
  errors : Option (List FieldError) := none
  user : Option User := none
  deriving Repr, DecidableEq

/-- The abstract password hasher: hash produces a digest, verify takes the
stored digest and a plaintext. Embeds the argon2 collaborator. -/
structure Hasher where
  hash : String → String
  verify : String → String → Bool

/-- One entry of the Token Cache: key, stored value, and the absolute time at
which the entry stops being visible (set time plus the EX seconds argument). -/
structure CacheEntry where
  key : String
  value : String
  expiresAt : Nat
  deriving Repr, DecidableEq

/-- redis.get: the entry for the key, provided it has not expired. -/
def redisGet (cache : List CacheEntry) (now : Nat) (k : String) : Option String :=
  (cache.find? fun e => e.key = k && now < e.expiresAt).map (fun e => e.value)

/-- redis.set with EX seconds: overwrite the key with a fresh expiry. -/
def redisSet (cache : List CacheEntry) (now : Nat) (k v : String) (exSeconds : Nat) :
    List CacheEntry :=
  (cache.filter fun e => e.key ≠ k) ++ [⟨k, v, now + exSeconds⟩]

/-- redis.del: remove the key. -/
def redisDel (cache : List CacheEntry) (k : String) : List CacheEntry :=
  cache.filter fun e => e.key ≠ k

/-- The full mutable state the resolver methods touch: the user table, the
Token Cache, the session userId of the current request, and the emails
dispatched so far (recipient, token, userId of the reset link). -/
structure DBState where
  users : List User
  cache : List CacheEntry
  sessionUserId : Option Nat
  emailsSent : List (String × String × Nat)
  deriving Repr, DecidableEq

/-- Modelled from the spec: constants.ts is not among the sources; the spec
says the cache key is a fixed prefix followed by the token. The exact string
is immaterial to every claim. Embeds the constant the source imports as
FORGET_PASSWORD_PREFIX. -/
def FORGET_PASSWORD_TAG : String := "forget-password:"

/-- JavaScript parseInt on the userId argument: skip leading spaces, optional
sign, then the longest run of leading decimal digits; none when no digit is
found (NaN). -/
def jsParseInt (s : String) : Option Int :=
  let cs := s.data.dropWhile (fun c => c = ' ')
  let signed : Bool × List Char :=
    match cs with
    | '-' :: rest => (true, rest)
    | '+' :: rest => (false, rest)
    | _ => (false, cs)
  let ds := signed.2.takeWhile Char.isDigit
  if ds.isEmpty then none
  else
    let n : Nat := ds.foldl (fun a c => a * 10 + (c.toNat - 48)) 0
    some (if signed.1 then -(n : Int) else (n : Int))

/-- User.findOne(parseInt(userId)): the user whose id equals the parsed
userId argument, if any. -/
def findUserByIdArg (userId : String) (users : List User) : Option User :=
  match jsParseInt userId with
  | none => none
  | some n => if n < 0 then none else users.find? (fun u => u.id = n.toNat)

/-- changePassword (src/server/src/resolvers/user.ts lines 193-263):
reject a new password of length at most 2; look up the token key in the
cache; load the user from the userId argument; then hash, update the row,
delete the token and set the session. Returns the response and the new
state. -/
def changePassword (hs : Hasher) (now : Nat) (token userId newPassword : String)
    (st : DBState) : UserMutationResponse × DBState :=
  if newPassword.length ≤ 2 then
    ({ code := 400, success := false, message := "Invalid password",
       errors := some [⟨"newPassword", "Length must be greater than 2"⟩] }, st)
  else
    let key := FORGET_PASSWORD_TAG ++ token
    match redisGet st.cache now key with
    | none =>
      ({ code := 400, success := false,
         message := "Invalid or expired password reset token",
         errors := some [⟨"token", "Invalid or expired password reset token"⟩] }, st)
    | some _ =>
      match findUserByIdArg userId st.users with
      | none =>
        ({ code := 400, success := false, message := "User no longer exists",
           errors := some [⟨"token", "User no longer exists"⟩] }, st)
      | some user =>
        let updatedPassword := hs.hash newPassword
        let users' := st.users.map
          (fun u => if u.id = user.id then { u with password := updatedPassword } else u)
        ({ code := 200, success := true, message := "User password reset successfully",
           user := some user },
         { st with users := users', cache := redisDel st.cache key,
                   sessionUserId := some user.id })

/-- forgotPassword (src/server/src/resolvers/user.ts lines 166-191):
look up the user by email; if absent return true at once. Otherwise store
prefix+token -> userId in the cache with the EX value the source writes,
1000 * 60 * 60 * 24 * 3, then dispatch the reset email and return true.
The fresh v4 token is passed in as the token parameter.
The method has no try/catch, so a failing cache write propagates as an
error (the redisSetFails flag). sendEmail is modelled from the spec:
src/utils/sendEmail.ts is not among the sources and the spec states that
dispatch failures are swallowed, so the sendEmailFails flag never turns the
result into an error and only suppresses the email record. -/
def forgotPasswordE (redisSetFails sendEmailFails : Bool) (token : String)
    (now : Nat) (email : String) (st : DBState) : Except String (Bool × DBState) :=
  match st.users.find? (fun u => u.email = email) with
  | none => .ok (true, st)
  | some user =>
    if redisSetFails then .error "cache write failed"
    else
      let cache' := redisSet st.cache now (FORGET_PASSWORD_TAG ++ token)
        (toString user.id) (1000 * 60 * 60 * 24 * 3)
      let st1 := { st with cache := cache' }
      let st2 :=
        if sendEmailFails then st1
        else { st1 with emailsSent := st1.emailsSent ++ [(email, token, user.id)] }
      .ok (true, st2)

/-- forgotPassword with both collaborators succeeding. -/
def forgotPassword (token : String) (now : Nat) (email : String) (st : DBState) :
    Except String (Bool × DBState) :=
  forgotPasswordE false false token now email st

/-- The registration input triple. -/
structure RegisterInput where
  username : String
  email : String
  password : String
  deriving Repr, DecidableEq

/-- Modelled from the spec: the storage layer assigns auto-increment ids
(the User entity file is not among the sources; the spec scenario gives the
first registered user id 1). -/
def nextUserId (users : List User) : Nat :=
  users.foldl (fun m u => max m u.id) 0 + 1

/-- register (src/server/src/resolvers/user.ts lines 37-92). The input
validator src/utils/validateRegisterInput.ts is not among the sources; the
spec says only that it runs first and short-circuits with field-level
errors, so its outcome is passed in as the validationErrors parameter
(modelled from the spec). On a duplicate username or email the single
found row decides the reported field. -/
def register (hs : Hasher) (validationErrors : Option (String × List FieldError))
    (input : RegisterInput) (st : DBState) : UserMutationResponse × DBState :=
  match validationErrors with
  | some (msg, errs) =>
    ({ code := 400, success := false, message := msg, errors := some errs }, st)
  | none =>
    match st.users.find?
        (fun u => u.username = input.username || u.email = input.email) with
    | some existingUser =>
      ({ code := 400, success := false, message := "Duplicated username or email",
         errors := some [⟨if existingUser.username = input.username
                            then "username" else "email",
                          (if existingUser.username = input.username
                            then "Username" else "Email") ++ " already taken"⟩] }, st)
    | none =>
      let hashedPassword := hs.hash input.password
      let newUser : User :=
        ⟨nextUserId st.users, input.username, input.email, hashedPassword⟩
      ({ code := 200, success := true, message := "User registration successful",
         user := some newUser },
       { st with users := st.users ++ [newUser], sessionUserId := some newUser.id })

/-- User.findOne on the login identifier: by email when it contains an @,
by username otherwise (src/server/src/resolvers/user.ts lines 100-104). -/
def loginFind (usernameOrEmail : String) (users : List User) : Option User :=
  if usernameOrEmail.data.contains '@' then
    users.find? (fun u => u.email = usernameOrEmail)
  else
    users.find? (fun u => u.username = usernameOrEmail)

/-- login (src/server/src/resolvers/user.ts lines 94-149). -/
def login (hs : Hasher) (usernameOrEmail password : String) (st : DBState) :
    UserMutationResponse × DBState :=
  match loginFind usernameOrEmail st.users with
  | none =>
    ({ code := 400, success := false, message := "User not found",
       errors := some [⟨"usernameOrEmail", "Username or email incorrect"⟩] }, st)
  | some existingUser =>
    if hs.verify existingUser.password password then
      ({ code := 200, success := true, message := "Logged in successfully",
         user := some existingUser },
       { st with sessionUserId := some existingUser.id })
    else
      ({ code := 400, success := false, message := "Wrong password",
         errors := some [⟨"password", "Wrong password"⟩] }, st)

/-- The per-request client and server side effects logout touches. -/
structure LogoutState where
  cookieCleared : Bool
  sessionDestroyed : Bool
  deriving Repr, DecidableEq

/-- Promise resolution: the first resolve wins, later resolves are ignored. -/
def promiseResolve (p : Option Bool) (v : Bool) : Option Bool :=
  match p with
  | some w => some w
  | none => some v

/-- logout (src/server/src/resolvers/user.ts lines 151-164): clear the
cookie, then destroy the session; the callback resolves false on error and
falls through to resolve true, where only the first resolve counts. The
returned Option Bool is the settled promise value. -/
def logout (destroyError : Bool) (ls : LogoutState) : Option Bool × LogoutState :=
  let ls1 := { ls with cookieCleared := true }
  let p : Option Bool := none
  let p1 := if destroyError then promiseResolve p false else p
  let p2 := promiseResolve p1 true
  let ls2 := if destroyError then ls1 else { ls1 with sessionDestroyed := true }
  (p2, ls2)

/-- A concrete hasher for witnesses: identity hash, equality verify. -/
def hasher0 : Hasher := ⟨fun s => s, fun d p => d == p⟩

/-- After deleting a key, a get of that key misses at every time. -/
lemma redisGet_redisDel_self (cache : List CacheEntry) (now : Nat) (k : String) :
    redisGet (redisDel cache k) now k = none := by
  have h : (cache.filter fun e => e.key ≠ k).find?
      (fun e => e.key = k && now < e.expiresAt) = none := by
    rw [List.find?_eq_none]
    intro e he
    rw [List.mem_filter] at he
    simp only [Bool.and_eq_true, decide_eq_true_eq]
    intro hcontra
    exact absurd hcontra.1 (by simpa using he.2)
  simp only [redisGet, redisDel]
  rw [h]
  rfl

/-- Claim C1: the code stores the reset token with EX value
1000 * 60 * 60 * 24 * 3 = 259200000 seconds, not the 259200 seconds (3 days)
the claim states, so the token is still usable one second after 3 days have
elapsed: the millisecond formula was passed to the seconds-based EX mode,
contradicting the adjacent source comment that says 3 days. -/
theorem C1_forgotPassword_expiry_value :
    forgotPassword "tok" 0 "a@x.com"
      { users := [⟨1, "alice", "a@x.com", "d"⟩], cache := [],
        sessionUserId := none, emailsSent := [] } =
      .ok (true,
        { users := [⟨1, "alice", "a@x.com", "d"⟩],
          cache := [⟨FORGET_PASSWORD_TAG ++ "tok", "1", 1000 * 60 * 60 * 24 * 3⟩],
          sessionUserId := none, emailsSent := [("a@x.com", "tok", 1)] })
    ∧ redisGet [⟨FORGET_PASSWORD_TAG ++ "tok", "1", 1000 * 60 * 60 * 24 * 3⟩]
        (259200 + 1) (FORGET_PASSWORD_TAG ++ "tok") = some "1"
    ∧ (1000 * 60 * 60 * 24 * 3 : Nat) ≠ 259200 := by
  refine ⟨rfl, by decide, by decide⟩

/-- Claim C7: a newPassword of length at most 2 is rejected with a single
field error on newPassword, code 400, and the state (so in particular the
Token Cache) is untouched, for every state and token, valid or not. -/
theorem C7_changePassword_weak_password (hs : Hasher) (now : Nat)
    (token userId newPassword : String) (st : DBState)
    (h : newPassword.length ≤ 2) :
    changePassword hs now token userId newPassword st =
      ({ code := 400, success := false, message := "Invalid password",
         errors := some [⟨"newPassword", "Length must be greater than 2"⟩] }, st) := by
  simp [changePassword, h]

/-- Claim C7 witness: the weak-password rejection at a concrete call with a
valid token in the cache. -/
theorem C7_changePassword_weak_password_witness :
    "ab".length ≤ 2
    ∧ changePassword hasher0 0 "tok" "1" "ab"
        { users := [⟨1, "alice", "a@x.com", "d"⟩],
          cache := [⟨FORGET_PASSWORD_TAG ++ "tok", "1", 10⟩],
          sessionUserId := none, emailsSent := [] } =
      ({ code := 400, success := false, message := "Invalid password",
         errors := some [⟨"newPassword", "Length must be greater than 2"⟩] },
       { users := [⟨1, "alice", "a@x.com", "d"⟩],
         cache := [⟨FORGET_PASSWORD_TAG ++ "tok", "1", 10⟩],
         sessionUserId := none, emailsSent := [] }) :=
  ⟨by decide, C7_changePassword_weak_password hasher0 0 "tok" "1" "ab" _ (by decide)⟩

/-- Claim C9: with an acceptable newPassword and a live token, a userId
argument matching no existing user yields code 400 with the error on field
token (not userId) and message User no longer exists, state unchanged. -/
theorem C9_changePassword_missing_user (hs : Hasher) (now : Nat)
    (token userId newPassword : String) (st : DBState) (v : String)
    (hlen : ¬ newPassword.length ≤ 2)
    (htok : redisGet st.cache now (FORGET_PASSWORD_TAG ++ token) = some v)
    (huser : findUserByIdArg userId st.users = none) :
    changePassword hs now token userId newPassword st =
      ({ code := 400, success := false, message := "User no longer exists",
         errors := some [⟨"token", "User no longer exists"⟩] }, st) := by
  simp [changePassword, hlen, htok, huser]

/-- Claim C9 witness: a concrete call with a live token whose userId names
nobody. -/
theorem C9_changePassword_missing_user_witness :
    ¬ ("abc".length ≤ 2)
    ∧ redisGet [⟨FORGET_PASSWORD_TAG ++ "tok", "5", 10⟩] 0
        (FORGET_PASSWORD_TAG ++ "tok") = some "5"
    ∧ findUserByIdArg "7" [⟨1, "alice", "a@x.com", "d"⟩] = none
    ∧ changePassword hasher0 0 "tok" "7" "abc"
        { users := [⟨1, "alice", "a@x.com", "d"⟩],
          cache := [⟨FORGET_PASSWORD_TAG ++ "tok", "5", 10⟩],
          sessionUserId := none, emailsSent := [] } =
      ({ code := 400, success := false, message := "User no longer exists",
         errors := some [⟨"token", "User no longer exists"⟩] },
       { users := [⟨1, "alice", "a@x.com", "d"⟩],
         cache := [⟨FORGET_PASSWORD_TAG ++ "tok", "5", 10⟩],
         sessionUserId := none, emailsSent := [] }) :=
  ⟨by decide, by decide, by decide,
   C9_changePassword_missing_user hasher0 0 "tok" "7" "abc" _ "5"
     (by decide) (by decide) (by decide)⟩

/-- Claim C2: changePassword never reads the user id stored under the token
key: for any stored value v (the token owner) and any userId argument that
resolves to an existing user B, the call succeeds, rewrites the stored
password of B to the hash of the new password, deletes the token key and
sets the session to B, whether or not v names B. -/
theorem C2_changePassword_ignores_token_owner (hs : Hasher) (now : Nat)
    (token userId newPassword : String) (st : DBState) (v : String) (B : User)
    (hlen : ¬ newPassword.length ≤ 2)
    (htok : redisGet st.cache now (FORGET_PASSWORD_TAG ++ token) = some v)
    (huser : findUserByIdArg userId st.users = some B) :
    changePassword hs now token userId newPassword st =
      ({ code := 200, success := true, message := "User password reset successfully",
         user := some B },
       { st with
           users := st.users.map
             (fun u => if u.id = B.id then { u with password := hs.hash newPassword } else u),
           cache := redisDel st.cache (FORGET_PASSWORD_TAG ++ token),
           sessionUserId := some B.id }) := by
  simp [changePassword, hlen, htok, huser]

/-- Claim C2 witness: the token under the key was issued for user id 5 but
the userId argument names user 1; the call still resets user 1 and logs the
session in as user 1. -/
theorem C2_changePassword_ignores_token_owner_witness :
    ¬ ("newpass".length ≤ 2)
    ∧ redisGet [⟨FORGET_PASSWORD_TAG ++ "tok", "5", 10⟩] 0
        (FORGET_PASSWORD_TAG ++ "tok") = some "5"
    ∧ findUserByIdArg "1" [⟨1, "bob", "b@x.com", "old"⟩] =
        some ⟨1, "bob", "b@x.com", "old"⟩
    ∧ changePassword hasher0 0 "tok" "1" "newpass"
        { users := [⟨1, "bob", "b@x.com", "old"⟩],
          cache := [⟨FORGET_PASSWORD_TAG ++ "tok", "5", 10⟩],
          sessionUserId := none, emailsSent := [] } =
      ({ code := 200, success := true, message := "User password reset successfully",
         user := some ⟨1, "bob", "b@x.com", "old"⟩ },
       { users := [⟨1, "bob", "b@x.com", "old"⟩].map
           (fun u => if u.id = 1 then { u with password := hasher0.hash "newpass" } else u),
         cache := redisDel [⟨FORGET_PASSWORD_TAG ++ "tok", "5", 10⟩]
           (FORGET_PASSWORD_TAG ++ "tok"),
         sessionUserId := some 1, emailsSent := [] }) :=
  ⟨by decide, by decide, by decide,
   C2_changePassword_ignores_token_owner hasher0 0 "tok" "1" "newpass"
     { users := [⟨1, "bob", "b@x.com", "old"⟩],
       cache := [⟨FORGET_PASSWORD_TAG ++ "tok", "5", 10⟩],
       sessionUserId := none, emailsSent := [] }
     "5" ⟨1, "bob", "b@x.com", "old"⟩ (by decide) (by decide) (by decide)⟩

/-- Claim C6: login looks the user up by email when the identifier contains
an at sign and by username otherwise; a missing user gives a 400 field
error on usernameOrEmail, a failing verify gives a 400 field error on
password with a distinct message, and a passing verify sets the session to
the user and succeeds. -/
theorem C6_login_behavior (hs : Hasher) (ue pw : String) (st : DBState) :
    (loginFind ue st.users =
      if ue.data.contains '@' then st.users.find? (fun u => u.email = ue)
      else st.users.find? (fun u => u.username = ue))
    ∧ (loginFind ue st.users = none →
        login hs ue pw st =
          ({ code := 400, success := false, message := "User not found",
             errors := some [⟨"usernameOrEmail", "Username or email incorrect"⟩] }, st))
    ∧ (∀ u : User, loginFind ue st.users = some u →
        hs.verify u.password pw = false →
        login hs ue pw st =
          ({ code := 400, success := false, message := "Wrong password",
             errors := some [⟨"password", "Wrong password"⟩] }, st))
    ∧ (∀ u : User, loginFind ue st.users = some u →
        hs.verify u.password pw = true →
        login hs ue pw st =
          ({ code := 200, success := true, message := "Logged in successfully",
             user := some u },
           { st with sessionUserId := some u.id }))
    ∧ "Username or email incorrect" ≠ "Wrong password" := by
  refine ⟨rfl, ?_, ?_, ?_, by decide⟩
  · intro h
    simp [login, h]
  · intro u h hv
    simp [login, h, hv]
  · intro u h hv
    simp [login, h, hv]

/-- Claim C6 witness: a successful login through the email branch at a
concrete state, applying the general theorem at that input. -/
theorem C6_login_behavior_witness :
    loginFind "a@x.com" [⟨1, "alice", "a@x.com", "pw"⟩] =
      some ⟨1, "alice", "a@x.com", "pw"⟩
    ∧ hasher0.verify "pw" "pw" = true
    ∧ login hasher0 "a@x.com" "pw"
        { users := [⟨1, "alice", "a@x.com", "pw"⟩], cache := [],
          sessionUserId := none, emailsSent := [] } =
      ({ code := 200, success := true, message := "Logged in successfully",
         user := some ⟨1, "alice", "a@x.com", "pw"⟩ },
       { users := [⟨1, "alice", "a@x.com", "pw"⟩], cache := [],
         sessionUserId := some 1, emailsSent := [] }) :=
  ⟨by decide, by decide,
   (C6_login_behavior hasher0 "a@x.com" "pw"
       { users := [⟨1, "alice", "a@x.com", "pw"⟩], cache := [],
         sessionUserId := none, emailsSent := [] }).2.2.2.1
     ⟨1, "alice", "a@x.com", "pw"⟩ (by decide) (by decide)⟩

/-- Claim C8: logout settles the promise with true exactly when the session
destroy reports no error and with false otherwise (the double resolve in the
callback is harmless because only the first resolve counts), never leaving
the promise unsettled, and the client cookie is cleared in both cases. -/
theorem C8_logout_clears_cookie (destroyError : Bool) (ls : LogoutState) :
    (logout destroyError ls).1 = some (if destroyError then false else true)
    ∧ (logout destroyError ls).2.cookieCleared = true := by
  cases destroyError <;> exact ⟨rfl, rfl⟩

/-- Claim C10: whenever changePassword answers with code 400, the whole
state is untouched: no password row is rewritten, the token key stays in the
cache, and the session userId keeps its value. -/
theorem C10_changePassword_atomic_on_400 (hs : Hasher) (now : Nat)
    (token userId newPassword : String) (st : DBState)
    (h : (changePassword hs now token userId newPassword st).1.code = 400) :
    (changePassword hs now token userId newPassword st).2 = st := by
  by_cases hl : newPassword.length ≤ 2
  · simp [changePassword, hl]
  · rcases htok : redisGet st.cache now (FORGET_PASSWORD_TAG ++ token) with _ | v
    · simp [changePassword, hl, htok]
    · rcases huser : findUserByIdArg userId st.users with _ | B
      · simp [changePassword, hl, htok, huser]
      · exfalso
        simp [changePassword, hl, htok, huser] at h

/-- Claim C3 counterexample: with a matching user present, a failing Token
Cache write makes forgotPassword raise past its boundary (the method has no
try/catch), contradicting the claim that cache write failures are never
surfaced. -/
theorem C3_counterexample_cache_write_raises :
    forgotPasswordE true false "tok" 0 "a@x.com"
      { users := [⟨1, "alice", "a@x.com", "d"⟩], cache := [],
        sessionUserId := none, emailsSent := [] } =
      .error "cache write failed" := rfl

/-- Claim C3 amended: forgotPassword returns true once the lookup completes
provided the Token Cache write succeeds (true at once when no user matches,
with no token and no email), and an email-dispatch failure is still
swallowed; a Token Cache write failure, however, propagates as an error. -/
theorem C3_forgotPassword_returns_true (sendEmailFails : Bool) (token : String)
    (now : Nat) (email : String) (st : DBState) :
    (∃ st', forgotPasswordE false sendEmailFails token now email st = .ok (true, st'))
    ∧ (st.users.find? (fun u => u.email = email) = none →
        ∀ redisSetFails : Bool,
          forgotPasswordE redisSetFails sendEmailFails token now email st =
            .ok (true, st)) := by
  constructor
  · rcases hfind : st.users.find? (fun u => u.email = email) with _ | u
    · exact ⟨st, by simp [forgotPasswordE, hfind]⟩
    · cases sendEmailFails
      · exact ⟨{ st with
            cache := redisSet st.cache now (FORGET_PASSWORD_TAG ++ token)
              (toString u.id) (1000 * 60 * 60 * 24 * 3),
            emailsSent := st.emailsSent ++ [(email, token, u.id)] },
          by simp [forgotPasswordE, hfind]⟩
      · exact ⟨{ st with
            cache := redisSet st.cache now (FORGET_PASSWORD_TAG ++ token)
              (toString u.id) (1000 * 60 * 60 * 24 * 3) },
          by simp [forgotPasswordE, hfind]⟩
  · intro hnone redisSetFails
    simp [forgotPasswordE, hnone]

/-- Claim C3 witness: with no matching user, even a failing cache write and
a failing email dispatch leave the result at true with the state untouched. -/
theorem C3_forgotPassword_returns_true_witness :
    ([] : List User).find? (fun u => u.email = "e@x.com") = none
    ∧ forgotPasswordE true true "tok" 0 "e@x.com"
        { users := [], cache := [], sessionUserId := none, emailsSent := [] } =
      .ok (true, { users := [], cache := [], sessionUserId := none, emailsSent := [] }) :=
  ⟨rfl,
   (C3_forgotPassword_returns_true true "tok" 0 "e@x.com"
       { users := [], cache := [], sessionUserId := none, emailsSent := [] }).2
     rfl true⟩

/-- Claim C4 counterexample: after a successful changePassword consumed the
token, a second call with the same token but a two-character newPassword
returns 400 with the field error on newPassword, not the claimed field
error Invalid or expired password reset token on field token, so not every
subsequent call with the consumed token yields the token error. -/
theorem C4_counterexample_weak_second_call :
    (changePassword hasher0 0 "tok" "1" "newpass"
        { users := [⟨1, "alice", "a@x.com", "old"⟩],
          cache := [⟨FORGET_PASSWORD_TAG ++ "tok", "1", 100⟩],
          sessionUserId := none, emailsSent := [] }).1.success = true
    ∧ (changePassword hasher0 1 "tok" "1" "ab"
        (changePassword hasher0 0 "tok" "1" "newpass"
          { users := [⟨1, "alice", "a@x.com", "old"⟩],
            cache := [⟨FORGET_PASSWORD_TAG ++ "tok", "1", 100⟩],
            sessionUserId := none, emailsSent := [] }).2).1.errors =
      some [⟨"newPassword", "Length must be greater than 2"⟩]
    ∧ some [(⟨"newPassword", "Length must be greater than 2"⟩ : FieldError)] ≠
        some [(⟨"token", "Invalid or expired password reset token"⟩ : FieldError)] := by
  refine ⟨by decide, by decide, by decide⟩

/-- Claim C4 amended: after one successful changePassword consuming token T
(its enabling conditions: acceptable newPassword, live token, resolvable
userId), the cache key for T is gone at every later time, and any subsequent
changePassword with the same T whose newPassword passes the length check
returns 400 with the field error Invalid or expired password reset token on
field token, leaving the state unchanged. -/
theorem C4_token_single_use (hs hs' : Hasher) (now now' : Nat)
    (token userId userId' newPw newPw' : String) (st : DBState)
    (v : String) (B : User)
    (hlen : ¬ newPw.length ≤ 2)
    (htok : redisGet st.cache now (FORGET_PASSWORD_TAG ++ token) = some v)
    (huser : findUserByIdArg userId st.users = some B)
    (hlen' : ¬ newPw'.length ≤ 2) :
    (changePassword hs now token userId newPw st).1.success = true
    ∧ redisGet (changePassword hs now token userId newPw st).2.cache now'
        (FORGET_PASSWORD_TAG ++ token) = none
    ∧ changePassword hs' now' token userId' newPw'
        (changePassword hs now token userId newPw st).2 =
      ({ code := 400, success := false,
         message := "Invalid or expired password reset token",
         errors := some [⟨"token", "Invalid or expired password reset token"⟩] },
       (changePassword hs now token userId newPw st).2) := by
  have hc : changePassword hs now token userId newPw st =
      ({ code := 200, success := true, message := "User password reset successfully",
         user := some B },
       { st with
           users := st.users.map
             (fun u => if u.id = B.id then { u with password := hs.hash newPw } else u),
           cache := redisDel st.cache (FORGET_PASSWORD_TAG ++ token),
           sessionUserId := some B.id }) := by
    simp [changePassword, hlen, htok, huser]
  rw [hc]
  refine ⟨rfl, redisGet_redisDel_self st.cache now' (FORGET_PASSWORD_TAG ++ token), ?_⟩
  simp [changePassword, hlen', redisGet_redisDel_self]

/-- Claim C4 witness: a concrete consumed token is gone from the cache and a
second well-formed attempt with it fails with the token error. -/
theorem C4_token_single_use_witness :
    ¬ ("newpass".length ≤ 2)
    ∧ redisGet [⟨FORGET_PASSWORD_TAG ++ "tok", "1", 100⟩] 0
        (FORGET_PASSWORD_TAG ++ "tok") = some "1"
    ∧ findUserByIdArg "1" [⟨1, "alice", "a@x.com", "old"⟩] =
        some ⟨1, "alice", "a@x.com", "old"⟩
    ∧ ¬ ("other".length ≤ 2)
    ∧ ((changePassword hasher0 0 "tok" "1" "newpass"
          { users := [⟨1, "alice", "a@x.com", "old"⟩],
            cache := [⟨FORGET_PASSWORD_TAG ++ "tok", "1", 100⟩],
            sessionUserId := none, emailsSent := [] }).1.success = true
        ∧ redisGet (changePassword hasher0 0 "tok" "1" "newpass"
            { users := [⟨1, "alice", "a@x.com", "old"⟩],
              cache := [⟨FORGET_PASSWORD_TAG ++ "tok", "1", 100⟩],
              sessionUserId := none, emailsSent := [] }).2.cache 1
            (FORGET_PASSWORD_TAG ++ "tok") = none
        ∧ changePassword hasher0 1 "tok" "1" "other"
            (changePassword hasher0 0 "tok" "1" "newpass"
              { users := [⟨1, "alice", "a@x.com", "old"⟩],
                cache := [⟨FORGET_PASSWORD_TAG ++ "tok", "1", 100⟩],
                sessionUserId := none, emailsSent := [] }).2 =
          ({ code := 400, success := false,
             message := "Invalid or expired password reset token",
             errors := some [⟨"token", "Invalid or expired password reset token"⟩] },
           (changePassword hasher0 0 "tok" "1" "newpass"
              { users := [⟨1, "alice", "a@x.com", "old"⟩],
                cache := [⟨FORGET_PASSWORD_TAG ++ "tok", "1", 100⟩],
                sessionUserId := none, emailsSent := [] }).2)) :=
  ⟨by decide, by decide, by decide, by decide,
   C4_token_single_use hasher0 hasher0 0 1 "tok" "1" "1" "newpass" "other"
     { users := [⟨1, "alice", "a@x.com", "old"⟩],
       cache := [⟨FORGET_PASSWORD_TAG ++ "tok", "1", 100⟩],
       sessionUserId := none, emailsSent := [] }
     "1" ⟨1, "alice", "a@x.com", "old"⟩
     (by decide) (by decide) (by decide) (by decide)⟩

/-- Claim C5 counterexample: the input username collides with the second
stored user and the input email with the first; the single row the lookup
returns is the email-colliding one, so the reported field is email even
though a username collision exists, refuting username-checked-first. -/
theorem C5_counterexample_email_reported_over_username :
    ([⟨1, "bob", "a@x.com", "p"⟩, ⟨2, "alice", "b@y.com", "q"⟩] : List User).any
        (fun u => u.username = "alice") = true
    ∧ ([⟨1, "bob", "a@x.com", "p"⟩, ⟨2, "alice", "b@y.com", "q"⟩] : List User).any
        (fun u => u.email = "a@x.com") = true
    ∧ (register hasher0 none ⟨"alice", "a@x.com", "secret123"⟩
        { users := [⟨1, "bob", "a@x.com", "p"⟩, ⟨2, "alice", "b@y.com", "q"⟩],
          cache := [], sessionUserId := none, emailsSent := [] }).1.errors =
      some [⟨"email", "Email already taken"⟩] := by
  refine ⟨by decide, by decide, by decide⟩

/-- Claim C5 amended: when the username-or-email lookup returns an existing
user, registration fails with 400 and one errors entry whose field is
username when that user's username equals the input username and email
otherwise (so username wins when both attributes collide with the same
user), the reported attribute does collide, and no row is inserted and no
session is established. -/
theorem C5_register_duplicate (hs : Hasher) (input : RegisterInput)
    (st : DBState) (u : User)
    (hfind : st.users.find?
        (fun x => x.username = input.username || x.email = input.email) = some u) :
    register hs none input st =
      ({ code := 400, success := false, message := "Duplicated username or email",
         errors := some [⟨if u.username = input.username then "username" else "email",
                          (if u.username = input.username then "Username" else "Email")
                            ++ " already taken"⟩] },
       st)
    ∧ (u.username = input.username ∨ u.email = input.email) := by
  constructor
  · simp [register, hfind]
  · have hp := List.find?_some hfind
    simpa using hp

/-- Claim C5 witness: when the input username and email both belong to the
same existing user, the reported field is username. -/
theorem C5_register_duplicate_witness :
    ([⟨1, "alice", "a@x.com", "p"⟩] : List User).find?
        (fun x => x.username = "alice" || x.email = "a@x.com") =
      some ⟨1, "alice", "a@x.com", "p"⟩
    ∧ (register hasher0 none ⟨"alice", "a@x.com", "pw123"⟩
          { users := [⟨1, "alice", "a@x.com", "p"⟩], cache := [],
            sessionUserId := none, emailsSent := [] } =
        ({ code := 400, success := false, message := "Duplicated username or email",
           errors := some [⟨if (⟨1, "alice", "a@x.com", "p"⟩ : User).username = "alice"
                              then "username" else "email",
                            (if (⟨1, "alice", "a@x.com", "p"⟩ : User).username = "alice"
                              then "Username" else "Email") ++ " already taken"⟩] },
         { users := [⟨1, "alice", "a@x.com", "p"⟩], cache := [],
           sessionUserId := none, emailsSent := [] })
      ∧ ((⟨1, "alice", "a@x.com", "p"⟩ : User).username = "alice"
          ∨ (⟨1, "alice", "a@x.com", "p"⟩ : User).email = "a@x.com")) :=
  ⟨by decide,
   C5_register_duplicate hasher0 ⟨"alice", "a@x.com", "pw123"⟩
     { users := [⟨1, "alice", "a@x.com", "p"⟩], cache := [],
       sessionUserId := none, emailsSent := [] }
     ⟨1, "alice", "a@x.com", "p"⟩ (by decide)⟩

/-- Claim C10 witness: a weak-password rejection at a concrete input leaves
the state exactly as it was. -/
theorem C10_changePassword_atomic_on_400_witness :
    (changePassword hasher0 0 "tok" "1" "ab"
        { users := [⟨1, "alice", "a@x.com", "d"⟩],
          cache := [⟨FORGET_PASSWORD_TAG ++ "tok", "1", 10⟩],
          sessionUserId := none, emailsSent := [] }).1.code = 400
    ∧ (changePassword hasher0 0 "tok" "1" "ab"
        { users := [⟨1, "alice", "a@x.com", "d"⟩],
          cache := [⟨FORGET_PASSWORD_TAG ++ "tok", "1", 10⟩],
          sessionUserId := none, emailsSent := [] }).2 =
      { users := [⟨1, "alice", "a@x.com", "d"⟩],
        cache := [⟨FORGET_PASSWORD_TAG ++ "tok", "1", 10⟩],
        sessionUserId := none, emailsSent := [] } :=
  ⟨by decide,
   C10_changePassword_atomic_on_400 hasher0 0 "tok" "1" "ab"
     { users := [⟨1, "alice", "a@x.com", "d"⟩],
       cache := [⟨FORGET_PASSWORD_TAG ++ "tok", "1", 10⟩],
       sessionUserId := none, emailsSent := [] }
     (by decide)⟩
